import Mathlib

/-!
Shallow embedding of the authentication core of the
Project-Management-Application-Backend repository
(`src/controllers/auth.controller.js`, `src/middlewares/JWTauth.middleware.js`,
the user model from `src/md/modelsMD/user.models.md`, and the remaining
controller actions documented in the repository markdown), together with
theorems settling the frozen claims about the natural-language specification.

Conventions of the embedding:
* machine state is the list of persisted user documents (`Store`);
* every controller action is a pure function from its conceptual inputs
  (store, current time, request data) to `Except` of the error it throws;
* the external collaborators (bcrypt, sha256) are an explicit `Crypto`
  environment of abstract functions; JWT signing is modelled by a concrete,
  injective serialization of the signed payload (a stand-in for the compact
  JWS string), so that string equality of tokens behaves as in the code;
* JavaScript quirks that the claims hinge on are modelled explicitly:
  a `Promise` value (always truthy), and property access on `undefined`
  (a `TypeError`) through a tiny `JsValue` object model.
-/

namespace PMAuth

/-! ## JavaScript value model (only what the claims need) -/

/-- A JS `Promise` as a value: the eventual result is `val`, but the object
itself is what an expression evaluates to when the caller does not `await`. -/
structure Promise (α : Type) where
  val : α
deriving Repr, DecidableEq

/-- Any JS object, in particular any `Promise`, is truthy. -/
def Promise.truthy {α : Type} (_ : Promise α) : Bool :=
  true

inductive JsError where
  | typeError
deriving Repr, DecidableEq

/-- The fragment of JS values needed to model Express request objects. -/
inductive JsValue where
  | undefined
  | str (s : String)
  | obj (fields : List (String × JsValue))
deriving Repr

/-- JS property access: reading a missing property of an object yields
`undefined`; reading any property of `undefined` throws a `TypeError`. -/
def JsValue.getField : JsValue → String → Except JsError JsValue
  | .undefined, _ => .error .typeError
  | .str _, _ => .ok .undefined
  | .obj fields, k =>
      .ok ((((fields.find? (fun p => p.1 == k))).map Prod.snd).getD .undefined)

/-! ## External crypto collaborators -/

/-- The bcrypt / sha256 collaborators, abstracted as functions. -/
structure Crypto where
  sha256 : String → String
  bcryptHash : String → String
  bcryptCompare : String → String → Bool

/-- JWT configuration: secrets and TTLs come from the environment
(`ACCESS_TOKEN_SECRET`, `REFRESH_TOKEN_SECRET`, `*_EXPIRY`). -/
structure JwtEnv where
  accessTokenSecret : String
  refreshTokenSecret : String
  accessTokenExpiry : Nat
  refreshTokenExpiry : Nat
deriving Repr, DecidableEq

/-- Payload of an access token: `jwt.sign({_id, email, username}, ...)`
(`user.models.md`, `generateAccessToken`), extended with the `iat`/`exp`
claims the JWT library adds and the signing secret (standing in for the
signature). -/
structure AccessPayload where
  _id : Nat
  email : String
  username : String
  iat : Nat
  exp : Nat
  secret : String
deriving Repr, DecidableEq

/-- Payload of a refresh token: subject id only (spec 4.2), plus the
claims the JWT library adds and the signing secret. -/
structure RefreshPayload where
  _id : Nat
  iat : Nat
  exp : Nat
  secret : String
deriving Repr, DecidableEq

/-- Whether `pat` is an initial segment of `cs`. -/
def isPrefixList : List Char → List Char → Bool
  | [], _ => true
  | _ :: _, [] => false
  | p :: ps, c :: cs => p == c && isPrefixList ps cs

/-- Replace the first occurrence of `pat` (JS `String.prototype.replace`
with a string pattern touches only the first occurrence). -/
def replaceFirstAux (pat rep : List Char) : List Char → List Char
  | [] => []
  | c :: cs =>
    if isPrefixList pat (c :: cs) then rep ++ (c :: cs).drop pat.length
    else c :: replaceFirstAux pat rep cs

/-- JS `s.replace(pat, rep)` for a non-empty string pattern. -/
def jsReplace (s pat rep : String) : String :=
  String.mk (replaceFirstAux pat.data rep.data s.data)

/-- Split a character list at every `|`, structurally. -/
def splitBar : List Char → List (List Char)
  | [] => [[]]
  | c :: rest =>
    match splitBar rest with
    | [] => [[c]]
    | g :: gs => if c = '|' then [] :: g :: gs else (c :: g) :: gs

/-- Digit-list accumulator for `parseNat?`. -/
def parseNatAux : Nat → List Char → Option Nat
  | acc, [] => some acc
  | acc, ch :: cs =>
    let d := ch.toNat
    if 48 ≤ d ∧ d ≤ 57 then parseNatAux (acc * 10 + (d - 48)) cs
    else none

/-- Parse a decimal numeral (structural stand-in for `String.toNat?`). -/
def parseNat? (s : String) : Option Nat :=
  match s.data with
  | [] => none
  | cs => parseNatAux 0 cs

/-- Serialization standing in for the compact JWS string of an access token. -/
def AccessPayload.encode (p : AccessPayload) : String :=
  "jwtA|" ++ Nat.repr p._id ++ "|" ++ p.email ++ "|" ++ p.username ++ "|" ++
    Nat.repr p.iat ++ "|" ++ Nat.repr p.exp ++ "|" ++ p.secret

/-- Serialization standing in for the compact JWS string of a refresh token. -/
def RefreshPayload.encode (p : RefreshPayload) : String :=
  "jwtR|" ++ Nat.repr p._id ++ "|" ++ Nat.repr p.iat ++ "|" ++
    Nat.repr p.exp ++ "|" ++ p.secret

/-- Parse back an access token string; anything that is not a well-formed
compact token (for instance a token still carrying a `Bearer ` prefix)
yields `none`, as `jwt.verify` throws on malformed input. -/
def decodeAccess (s : String) : Option AccessPayload :=
  match (splitBar s.data).map (fun l => String.mk l) with
  | [tag, i, email, username, ia, ex, secret] =>
    if tag = "jwtA" then
      match parseNat? i, parseNat? ia, parseNat? ex with
      | some iv, some iav, some exv =>
          some { _id := iv, email := email, username := username,
                 iat := iav, exp := exv, secret := secret }
      | _, _, _ => none
    else none
  | _ => none

/-- Parse back a refresh token string. -/
def decodeRefresh (s : String) : Option RefreshPayload :=
  match (splitBar s.data).map (fun l => String.mk l) with
  | [tag, i, ia, ex, secret] =>
    if tag = "jwtR" then
      match parseNat? i, parseNat? ia, parseNat? ex with
      | some iv, some iav, some exv =>
          some { _id := iv, iat := iav, exp := exv, secret := secret }
      | _, _, _ => none
    else none
  | _ => none

/-- `jwt.verify(token, ACCESS_TOKEN_SECRET)`: succeeds iff the token parses,
was signed with the given secret, and is not expired. -/
def jwtVerifyAccess (s : String) (secret : String) (now : Nat) :
    Option AccessPayload :=
  match decodeAccess s with
  | some p => if p.secret = secret ∧ now < p.exp then some p else none
  | none => none

/-- `jwt.verify(token, REFRESH_TOKEN_SECRET)`. -/
def jwtVerifyRefresh (s : String) (secret : String) (now : Nat) :
    Option RefreshPayload :=
  match decodeRefresh s with
  | some p => if p.secret = secret ∧ now < p.exp then some p else none
  | none => none

/-! ## The user document and the store -/

/-- A persisted user document (`userSchema` in `user.models.md`; the
plumbing-only fields `avatar`, `fullName` and the timestamps are omitted).
`refreshToken` is a cleartext string, with `""` for the cleared/unset state
exactly as the controllers write it.  `passwordModified` models Mongoose
`isModified("password")`: it is set when a controller assigns `password`
and consumed by the pre-save hook. -/
structure UserDoc where
  _id : Nat
  username : String
  email : String
  password : String
  passwordModified : Bool
  isEmailVarified : Bool
  refreshToken : String
  forgotPasswordToken : Option String
  forgotPasswordExpiry : Option Nat
  emailVarificationToken : Option String
  emailVarificationExpiry : Option Nat
deriving Repr, DecidableEq

/-- The read-facing projection produced by
`.select("-password -refreshToken -emailVarificationToken -emailVarificationExpiry")`:
Mongoose exclusion keeps every schema field that is not listed, so the
forgot-password pair is kept. -/
structure PublicUser where
  _id : Nat
  username : String
  email : String
  isEmailVarified : Bool
  forgotPasswordToken : Option String
  forgotPasswordExpiry : Option Nat
deriving Repr, DecidableEq

def sanitizeSelect (u : UserDoc) : PublicUser :=
  { _id := u._id
    username := u.username
    email := u.email
    isEmailVarified := u.isEmailVarified
    forgotPasswordToken := u.forgotPasswordToken
    forgotPasswordExpiry := u.forgotPasswordExpiry }

/-- The persisted collection of users. -/
abbrev Store := List UserDoc

def findById (st : Store) (i : Nat) : Option UserDoc :=
  st.find? (fun u => u._id == i)

def findByEmail (st : Store) (email : String) : Option UserDoc :=
  st.find? (fun u => u.email == email)

/-- The `userSchema.pre("save")` hook: hash the password with bcrypt only
when the password field was modified since the last save. -/
def preSaveHook (c : Crypto) (u : UserDoc) : UserDoc :=
  if u.passwordModified then
    { u with password := c.bcryptHash u.password, passwordModified := false }
  else u

/-- `user.save(...)`: run the pre-save hook, then overwrite the persisted
document with the same `_id` (the `validateBeforeSave:false` option skips
schema validation, which this model does not track, but never the hook). -/
def saveUser (c : Crypto) (st : Store) (u : UserDoc) : Store :=
  let u' := preSaveHook c u
  st.map (fun v => if v._id == u'._id then u' else v)

/-! ## User model instance methods -/

/-- `userSchema.methods.isPasswordCorrect` is an `async` method: its value
at a call site that does not `await` it is the `Promise`, not the `Bool`. -/
def isPasswordCorrect (c : Crypto) (u : UserDoc) (password : String) :
    Promise Bool :=
  ⟨c.bcryptCompare password u.password⟩

/-- `userSchema.methods.generateAccessToken`: payload `{_id, email, username}`
signed with the access secret.  (The source declares the method `async` and
the controllers call it without `await`; that affects only the response
payload shape, which no claim here is about, so the token itself is
returned.) -/
def generateAccessToken (env : JwtEnv) (u : UserDoc) (now : Nat) : String :=
  AccessPayload.encode
    { _id := u._id, email := u.email, username := u.username,
      iat := now, exp := now + env.accessTokenExpiry,
      secret := env.accessTokenSecret }

/-- Modelled from the spec: the repository imports
`user.generateRefreshToken()` but the method body is not under `src/`
(only a generic tutorial variant appears in `JWT.md`); per spec 4.2 the
refresh token payload is the subject id only, signed with the refresh
secret, with a long configurable TTL. -/
def generateRefreshToken (env : JwtEnv) (u : UserDoc) (now : Nat) : String :=
  RefreshPayload.encode
    { _id := u._id, iat := now, exp := now + env.refreshTokenExpiry,
      secret := env.refreshTokenSecret }

/-- `userSchema.methods.generateTemoporaryToken`: a random hex string
(the entropy is an explicit argument here), its sha256 digest, and an
expiry of now + 20 minutes (in milliseconds). -/
def generateTemoporaryToken (c : Crypto) (randomHex : String) (now : Nat) :
    String × String × Nat :=
  let unHashedToken := randomHex
  let hashedToken := c.sha256 unHashedToken
  let tokenExpiry := now + 20 * 60 * 1000
  (unHashedToken, hashedToken, tokenExpiry)

/-! ## Errors -/

/-- `ApiError(statusCode, message)` as thrown by the controllers. -/
structure ApiError where
  statusCode : Nat
  message : String
deriving Repr, DecidableEq

/-- What a request handler can surface: a thrown `ApiError`, or an uncaught
JS exception (forwarded by `asyncHandler` to the error middleware as an
internal error). -/
inductive HandlerError where
  | js (e : JsError)
  | api (e : ApiError)
deriving Repr, DecidableEq

instance {ε α : Type} [DecidableEq ε] [DecidableEq α] : DecidableEq (Except ε α) :=
  fun a b =>
    match a, b with
    | .ok x, .ok y =>
      if h : x = y then .isTrue (h ▸ rfl)
      else .isFalse (fun hh => h (Except.ok.inj hh))
    | .error x, .error y =>
      if h : x = y then .isTrue (h ▸ rfl)
      else .isFalse (fun hh => h (Except.error.inj hh))
    | .ok _, .error _ => .isFalse (fun hh => Except.noConfusion hh)
    | .error _, .ok _ => .isFalse (fun hh => Except.noConfusion hh)

/-! ## Controllers (`auth.controller.js`) -/

/-- Result of a successful login: sanitized user plus both tokens
(the caller also sets them as cookies). -/
structure LoginOk where
  user : PublicUser
  accessToken : String
  refreshToken : String
deriving Repr, DecidableEq

/-- `generateAccessAndRefreshToken(userId)`: fetch the user, sign both
tokens, persist the refresh token on the user.  Any failure inside the
`try` (such as the fetched user being `null`) surfaces as the 500 error. -/
def generateAccessAndRefreshToken (c : Crypto) (env : JwtEnv) (st : Store)
    (now : Nat) (userId : Nat) : Except ApiError (Store × String × String) :=
  match findById st userId with
  | none => .error ⟨500, "Something went wrong while generating access Token."⟩
  | some user =>
    let accessToken := generateAccessToken env user now
    let refreshToken := generateRefreshToken env user now
    let user := { user with refreshToken := refreshToken }
    let st := saveUser c st user
    .ok (st, accessToken, refreshToken)

/-- Allocate a fresh `_id` for `User.create`. -/
def freshId (st : Store) : Nat :=
  st.foldr (fun u m => max m (u._id + 1)) 0

/-- `registerUser`: conflict check on username or email, create the user
(the create runs the pre-save hook, hashing the plaintext password), issue
a verification token pair, persist its hash and expiry, send the mail
(external, best-effort), and return the sanitized projection of a fresh
fetch of the user. -/
def registerUser (c : Crypto) (st : Store) (now : Nat) (randomHex : String)
    (email username password : String) : Except ApiError (Store × PublicUser) :=
  match st.find? (fun u => u.username == username || u.email == email) with
  | some _ => .error ⟨409, "User email or username already exists"⟩
  | none =>
    let user : UserDoc :=
      { _id := freshId st, username := username, email := email,
        password := password, passwordModified := true,
        isEmailVarified := false, refreshToken := "",
        forgotPasswordToken := none, forgotPasswordExpiry := none,
        emailVarificationToken := none, emailVarificationExpiry := none }
    let user := preSaveHook c user
    let st := st ++ [user]
    let (_unHashedToken, hashedToken, tokenExpiry) :=
      generateTemoporaryToken c randomHex now
    let user := { user with
      emailVarificationToken := some hashedToken,
      emailVarificationExpiry := some tokenExpiry }
    let st := saveUser c st user
    match findById st user._id with
    | none => .error ⟨500, "Something went wrong while registering the user."⟩
    | some createdUser => .ok (st, sanitizeSelect createdUser)

/-- `login`: email presence check, user lookup, password check, token pair
issuance, sanitized re-fetch.  The password check calls the async
`isPasswordCorrect` WITHOUT `await` (auth.controller.js line 93), so the
value tested for truthiness is the `Promise` object. -/
def login (c : Crypto) (env : JwtEnv) (st : Store) (now : Nat)
    (email password : String) : Except ApiError (Store × LoginOk) :=
  if email = "" then .error ⟨400, "Username or email is required !"⟩
  else
    match findByEmail st email with
    | none => .error ⟨400, "User does not exists !"⟩
    | some user =>
      let isPasswordValid := isPasswordCorrect c user password
      if !(Promise.truthy isPasswordValid) then
        .error ⟨400, "Invalid credentials !"⟩
      else
        match generateAccessAndRefreshToken c env st now user._id with
        | .error e => .error e
        | .ok (st, accessToken, refreshToken) =>
          match findById st user._id with
          | none =>
            .error ⟨500, "Something went wrong while registering the user."⟩
          | some loggedInUser =>
            .ok (st, ⟨sanitizeSelect loggedInUser, accessToken, refreshToken⟩)

/-- The request seen by `logout`: the `verifyJWT` middleware has attached
the authenticated user as `req.user`. -/
structure LogoutRequest where
  user : UserDoc
deriving Repr, DecidableEq

/-- The controller reads `req.user_id`; no such property exists on the
request (the middleware sets `req.user`), so the JS value is `undefined`. -/
def LogoutRequest.user_id (_ : LogoutRequest) : Option Nat :=
  none

/-- `Model.findByIdAndUpdate(id, update)`.  Mongoose turns an `undefined`
id into the filter `_id: null`, which matches no stored document, so the
update is a no-op in that case. -/
def findByIdAndUpdateClearRefresh (st : Store) (i : Option Nat) : Store :=
  match i with
  | some i => st.map (fun u => if u._id == i then { u with refreshToken := "" } else u)
  | none => st

/-- `logout`: `findByIdAndUpdate(req.user_id, {$set: {refreshToken: ""}})`,
then the caller clears the cookies. -/
def logout (st : Store) (req : LogoutRequest) : Store :=
  findByIdAndUpdateClearRefresh st req.user_id

/-- The filter of the `findOne` in `verifyEmail`: stored verification hash
equals the digest and stored expiry is strictly after `now`
(`emailVarificationExpiry: {$gt: Date.now()}`; an unset expiry never
satisfies `$gt`). -/
def matchVerification (now : Nat) (hashedToken : String) (u : UserDoc) : Bool :=
  u.emailVarificationToken == some hashedToken &&
    match u.emailVarificationExpiry with
    | some e => decide (now < e)
    | none => false

/-- `verifyEmail`: missing-token check, sha256 of the presented token,
lookup by hash and unexpired expiry, then clear the pair, set
`isEmailVarified`, and save. -/
def verifyEmail (c : Crypto) (st : Store) (now : Nat)
    (verificationToken : String) : Except ApiError (Store × Bool) :=
  if verificationToken = "" then
    .error ⟨400, "Email verification token is missing!"⟩
  else
    let hashedToken := c.sha256 verificationToken
    match st.find? (matchVerification now hashedToken) with
    | none => .error ⟨400, "Token is invalid or expired!"⟩
    | some user =>
      let user := { user with
        emailVarificationToken := none,
        emailVarificationExpiry := none,
        isEmailVarified := true }
      let st := saveUser c st user
      .ok (st, true)

/-- `resendEmailVerification`: look up `req.user?._id`, refuse when absent
or already verified, else issue and persist a fresh verification pair and
send the mail. -/
def resendEmailVerification (c : Crypto) (st : Store) (now : Nat)
    (randomHex : String) (reqUserId : Nat) : Except ApiError Store :=
  match findById st reqUserId with
  | none => .error ⟨404, "User does not exist"⟩
  | some user =>
    if user.isEmailVarified then .error ⟨409, "Email is already verified!"⟩
    else
      let (_unHashedToken, hashedToken, tokenExpiry) :=
        generateTemoporaryToken c randomHex now
      let user := { user with
        emailVarificationToken := some hashedToken,
        emailVarificationExpiry := some tokenExpiry }
      let st := saveUser c st user
      .ok st

/-- What can be thrown inside the `try` block of `refreshAccessToken`:
a `jwt.verify` failure, one of the two `ApiError(404, "Invalid refresh
token")` throws, or the 500 from token generation.  The surrounding
`catch` converts ALL of these to the same 401. -/
inductive RefreshFailure where
  | verifyFailed
  | userNotFound
  | tokenMismatch
  | generateFailed (e : ApiError)
deriving Repr, DecidableEq

/-- The `try` block of `refreshAccessToken`: verify the JWT, fetch the
subject, reject when the presented token differs from the stored one
(rotation detection), then rotate via `generateAccessAndRefreshToken`
(which already persists the new token) plus the redundant second save. -/
def refreshTryBlock (c : Crypto) (env : JwtEnv) (st : Store) (now : Nat)
    (incommingRefreshToken : String) :
    Except RefreshFailure (Store × String × String) :=
  match jwtVerifyRefresh incommingRefreshToken env.refreshTokenSecret now with
  | none => .error .verifyFailed
  | some decodedToken =>
    match findById st decodedToken._id with
    | none => .error .userNotFound
    | some user =>
      if incommingRefreshToken ≠ user.refreshToken then .error .tokenMismatch
      else
        match generateAccessAndRefreshToken c env st now user._id with
        | .error e => .error (.generateFailed e)
        | .ok (st, accessToken, newRefreshToken) =>
          let user := { user with refreshToken := newRefreshToken }
          let st := saveUser c st user
          .ok (st, accessToken, newRefreshToken)

/-- The handler logic of `refreshAccessToken` from the point where the
presented token string is in hand (`""` models an absent/falsy token):
the absent-token 401, then the `try` block, with the `catch` collapsing
every failure inside it - including the two `ApiError(404, "Invalid
refresh token")` throws - into `ApiError(401, "Refresh token is
expired!")`. -/
def refreshAccessTokenLogic (c : Crypto) (env : JwtEnv) (st : Store)
    (now : Nat) (incommingRefreshToken : String) :
    Except ApiError (Store × String × String) :=
  if incommingRefreshToken = "" then .error ⟨401, "Unauthorixed access!"⟩
  else
    match refreshTryBlock c env st now incommingRefreshToken with
    | .ok r => .ok r
    | .error _ => .error ⟨401, "Refresh token is expired!"⟩

/-- The full `refreshAccessToken` handler, including the token extraction
`req.cookie.refreshToken || req.body.refreshToken`.  Express defines
`req.cookies` (with cookie-parser), never `req.cookie`, so on a real
request the first member access is on `undefined` and throws a
`TypeError` before the `try` block is reached; `asyncHandler` forwards
the uncaught exception. -/
def refreshAccessToken (c : Crypto) (env : JwtEnv) (st : Store) (now : Nat)
    (req : JsValue) : Except HandlerError (Store × String × String) :=
  match req.getField "cookie" with
  | .error e => .error (.js e)
  | .ok cookieVal =>
    match cookieVal.getField "refreshToken" with
    | .error e => .error (.js e)
    | .ok v1 =>
      let fromCookie : Option String :=
        match v1 with
        | .str s => if s = "" then none else some s
        | _ => none
      match fromCookie with
      | some tok =>
        match refreshAccessTokenLogic c env st now tok with
        | .ok r => .ok r
        | .error e => .error (.api e)
      | none =>
        match req.getField "body" with
        | .error e => .error (.js e)
        | .ok bodyVal =>
          match bodyVal.getField "refreshToken" with
          | .error e => .error (.js e)
          | .ok v2 =>
            let tok :=
              match v2 with
              | .str s => s
              | _ => ""
            match refreshAccessTokenLogic c env st now tok with
            | .ok r => .ok r
            | .error e => .error (.api e)

/-- `forgotPasswordRequest`: user lookup by email, issue a reset token
pair, persist it on the `forgotPassword*` fields, send the mail. -/
def forgotPasswordRequest (c : Crypto) (st : Store) (now : Nat)
    (randomHex : String) (email : String) : Except ApiError Store :=
  match findByEmail st email with
  | none => .error ⟨404, "User does not exists!"⟩
  | some user =>
    let (_unHashedToken, hashedToken, tokenExpiry) :=
      generateTemoporaryToken c randomHex now
    let user := { user with
      forgotPasswordToken := some hashedToken,
      forgotPasswordExpiry := some tokenExpiry }
    let st := saveUser c st user
    .ok st

/-- The filter of the `findOne` in `resetForgotPassword`. -/
def matchForgot (now : Nat) (hashedToken : String) (u : UserDoc) : Bool :=
  u.forgotPasswordToken == some hashedToken &&
    match u.forgotPasswordExpiry with
    | some e => decide (now < e)
    | none => false

/-- `resetForgotPassword`: look up by hashed token and unexpired expiry,
clear the reset pair, assign the new plaintext password (the pre-save hook
hashes it), clear the refresh token, save. -/
def resetForgotPassword (c : Crypto) (st : Store) (now : Nat)
    (resetToken newPassword : String) : Except ApiError Store :=
  let hashedToken := c.sha256 resetToken
  match st.find? (matchForgot now hashedToken) with
  | none => .error ⟨404, "Token is invalid or expired!"⟩
  | some user =>
    let user := { user with
      forgotPasswordExpiry := none,
      forgotPasswordToken := none }
    let user := { user with password := newPassword, passwordModified := true }
    let user := { user with refreshToken := "" }
    let st := saveUser c st user
    .ok st

/-- `changeCurrentPassword`: fetch `req.user?._id` (calling the model
method on a `null` result would throw), check the old password (this call
IS awaited in the source), then assign the new password, clear the
refresh token, and save. -/
def changeCurrentPassword (c : Crypto) (st : Store) (reqUserId : Nat)
    (oldPassword newPassword : String) : Except HandlerError Store :=
  match findById st reqUserId with
  | none => .error (.js .typeError)
  | some user =>
    if !(isPasswordCorrect c user oldPassword).val then
      .error (.api ⟨400, "Invalid old password!"⟩)
    else
      let user := { user with password := newPassword, passwordModified := true }
      let user := { user with refreshToken := "" }
      let st := saveUser c st user
      .ok st

/-! ## JWT authentication middleware (`JWTauth.middleware.js`) -/

/-- The two places `verifyJWT` reads a token from: the `accessToken`
cookie (via the `undefined`-safe `req.cookies?.accessToken`) and the
`Authorization` header. -/
structure AuthRequest where
  cookiesAccessToken : Option String
  authorizationHeader : Option String
deriving Repr, DecidableEq

/-- `verifyJWT`: token from the cookie, or else from the Authorization
header with the literal `"Beared "` stripped (the `Bearer` typo is in the
source); then JWT verification and a sanitized user fetch; the user is
attached as `req.user`. -/
def verifyJWT (env : JwtEnv) (st : Store) (now : Nat) (req : AuthRequest) :
    Except ApiError PublicUser :=
  let fromCookie : Option String :=
    match req.cookiesAccessToken with
    | some t => if t = "" then none else some t
    | none => none
  let fromHeader : Option String :=
    match req.authorizationHeader with
    | some h =>
      let t := jsReplace h "Beared " ""
      if t = "" then none else some t
    | none => none
  match fromCookie.orElse (fun _ => fromHeader) with
  | none => .error ⟨401, "Unauthorzed request"⟩
  | some token =>
    match jwtVerifyAccess token env.accessTokenSecret now with
    | none => .error ⟨401, "Invalid access token. !"⟩
    | some decodedToken =>
      match findById st decodedToken._id with
      | none => .error ⟨401, "Invalid access token. !"⟩
      | some user => .ok (sanitizeSelect user)

/-! ## Concrete instances used by witnesses and counterexamples -/

/-- A concrete crypto environment: injective textual stand-ins for the
digest and hash functions, with `bcryptCompare` matching `bcryptHash`. -/
def testCrypto : Crypto :=
  { sha256 := fun s => "sha256(" ++ s ++ ")"
    bcryptHash := fun s => "bcrypt(" ++ s ++ ")"
    bcryptCompare := fun p h => h == "bcrypt(" ++ p ++ ")" }

def testEnv : JwtEnv :=
  { accessTokenSecret := "asecret"
    refreshTokenSecret := "rsecret"
    accessTokenExpiry := 100
    refreshTokenExpiry := 1000 }

/-- A persisted user as it looks after registration and verification:
hashed password, no pending tokens. -/
def aliceBase : UserDoc :=
  { _id := 1
    username := "alice"
    email := "a@x.com"
    password := "bcrypt(pw123456)"
    passwordModified := false
    isEmailVarified := true
    refreshToken := ""
    forgotPasswordToken := none
    forgotPasswordExpiry := none
    emailVarificationToken := none
    emailVarificationExpiry := none }

/-- The refresh token `generateRefreshToken testEnv aliceBase 1000` issues. -/
def tok0 : String :=
  RefreshPayload.encode { _id := 1, iat := 1000, exp := 2000, secret := "rsecret" }

/-- The refresh token issued on rotation at time 1500. -/
def tok1 : String :=
  RefreshPayload.encode { _id := 1, iat := 1500, exp := 2500, secret := "rsecret" }

/-- A valid access token for `aliceBase`, issued at 1000. -/
def atok : String :=
  AccessPayload.encode
    { _id := 1, email := "a@x.com", username := "alice",
      iat := 1000, exp := 1100, secret := "asecret" }

/-! ## Helper lemmas about the store operations -/

theorem preSaveHook_id (c : Crypto) (u : UserDoc) :
    (preSaveHook c u)._id = u._id := by
  unfold preSaveHook; split <;> rfl

theorem preSaveHook_of_not_modified (c : Crypto) (u : UserDoc)
    (h : u.passwordModified = false) : preSaveHook c u = u := by
  unfold preSaveHook; simp [h]

theorem preSaveHook_refreshToken (c : Crypto) (u : UserDoc) :
    (preSaveHook c u).refreshToken = u.refreshToken := by
  unfold preSaveHook; split <;> rfl

theorem preSaveHook_isEmailVarified (c : Crypto) (u : UserDoc) :
    (preSaveHook c u).isEmailVarified = u.isEmailVarified := by
  unfold preSaveHook; split <;> rfl

theorem preSaveHook_emailVarificationToken (c : Crypto) (u : UserDoc) :
    (preSaveHook c u).emailVarificationToken = u.emailVarificationToken := by
  unfold preSaveHook; split <;> rfl

theorem preSaveHook_emailVarificationExpiry (c : Crypto) (u : UserDoc) :
    (preSaveHook c u).emailVarificationExpiry = u.emailVarificationExpiry := by
  unfold preSaveHook; split <;> rfl

theorem preSaveHook_forgotPasswordToken (c : Crypto) (u : UserDoc) :
    (preSaveHook c u).forgotPasswordToken = u.forgotPasswordToken := by
  unfold preSaveHook; split <;> rfl

theorem preSaveHook_forgotPasswordExpiry (c : Crypto) (u : UserDoc) :
    (preSaveHook c u).forgotPasswordExpiry = u.forgotPasswordExpiry := by
  unfold preSaveHook; split <;> rfl

theorem findById_isSome_of_mem (st : Store) (u : UserDoc) (h : u ∈ st) :
    (findById st u._id).isSome := by
  induction st with
  | nil => cases h
  | cons v vs ih =>
    unfold findById at ih ⊢
    rw [List.find?_cons]
    rcases List.mem_cons.mp h with h1 | h2
    · subst h1
      simp
    · cases hv : (v._id == u._id) with
      | true => simp
      | false => exact ih h2

theorem findById_saveUser_self (c : Crypto) (st : Store) (u : UserDoc)
    (h : (findById st u._id).isSome) :
    findById (saveUser c st u) u._id = some (preSaveHook c u) := by
  induction st with
  | nil => simp [findById] at h
  | cons v vs ih =>
    by_cases hv : v._id = u._id
    · simp [saveUser, findById, List.find?_cons, preSaveHook_id, hv]
    · have h' : (findById vs u._id).isSome := by
        simpa [findById, List.find?_cons, hv] using h
      simpa [saveUser, findById, List.find?_cons, preSaveHook_id, hv] using ih h'

theorem mem_saveUser (c : Crypto) (st : Store) (u v : UserDoc)
    (h : v ∈ saveUser c st u) :
    v = preSaveHook c u ∨ (v ∈ st ∧ v._id ≠ u._id) := by
  unfold saveUser at h
  rcases List.mem_map.mp h with ⟨w, hw, hfw⟩
  by_cases hid : w._id = (preSaveHook c u)._id
  · left
    rw [← hfw]
    simp [hid]
  · right
    have hvw : v = w := by rw [← hfw]; simp [hid]
    refine ⟨hvw ▸ hw, ?_⟩
    rw [hvw, ← preSaveHook_id c u]
    exact hid

theorem findById_saveUser_self' (c : Crypto) (st : Store) (u : UserDoc)
    (i : Nat) (hi : u._id = i) (h : (findById st i).isSome) :
    findById (saveUser c st u) i = some (preSaveHook c u) := by
  subst hi
  exact findById_saveUser_self c st u h

/-- When no persisted user holds the presented refresh token, the `try`
block of `refreshAccessToken` throws. -/
theorem refreshTryBlock_error_of_not_stored (c : Crypto) (env : JwtEnv)
    (st : Store) (now : Nat) (tok : String)
    (h : ∀ v ∈ st, v.refreshToken ≠ tok) :
    ∃ e, refreshTryBlock c env st now tok = .error e := by
  unfold refreshTryBlock
  split
  · exact ⟨_, rfl⟩
  · split
    · exact ⟨_, rfl⟩
    · split
      · exact ⟨_, rfl⟩
      · rename_i user hf hcond
        exfalso
        have hmem : user ∈ st := List.mem_of_find?_eq_some hf
        have heq : tok = user.refreshToken := not_ne_iff.mp hcond
        exact h user hmem heq.symm

/-- When no persisted user holds the presented refresh token, the whole
refresh handler logic fails (whatever the token: absent, expired,
malformed, or mismatching). -/
theorem refreshLogic_fails_of_not_stored (c : Crypto) (env : JwtEnv)
    (st : Store) (now : Nat) (tok : String)
    (h : ∀ v ∈ st, v.refreshToken ≠ tok) :
    (refreshAccessTokenLogic c env st now tok).isOk = false := by
  unfold refreshAccessTokenLogic
  by_cases h0 : tok = ""
  · rw [if_pos h0]
    rfl
  · rw [if_neg h0]
    obtain ⟨e, he⟩ := refreshTryBlock_error_of_not_stored c env st now tok h
    rw [he]
    rfl

theorem findById_saveUser_password (c : Crypto) (st : Store) (w : UserDoc)
    (i : Nat) (hw : w._id = i) (hwm : w.passwordModified = false)
    (hsome : (findById st i).isSome) :
    ((findById (saveUser c st w) i).map (fun d => d.password)) =
      some w.password := by
  rw [findById_saveUser_self' c st w i hw hsome,
    preSaveHook_of_not_modified c w hwm]
  rfl

/-! ## Claims -/

/-- Claim C1 (code bug): the spec says login with a stored user's email and
a wrong password fails with InvalidCredentials, but `login` calls the async
`isPasswordCorrect` without `await` (auth.controller.js line 93), so the
truthy `Promise` makes the check pass: with a password whose bcrypt
comparison is `false`, login nevertheless succeeds, issues both tokens,
and never returns the `Invalid credentials !` error. -/
theorem c1_login_wrong_password_succeeds :
    testCrypto.bcryptCompare "wrongpw" aliceBase.password = false ∧
    (isPasswordCorrect testCrypto aliceBase "wrongpw").val = false ∧
    login testCrypto testEnv [aliceBase] 1000 "a@x.com" "wrongpw" =
      .ok ([{ aliceBase with refreshToken := tok0 }],
        { user := sanitizeSelect aliceBase, accessToken := atok, refreshToken := tok0 }) ∧
    login testCrypto testEnv [aliceBase] 1000 "a@x.com" "wrongpw" ≠
      .error ⟨400, "Invalid credentials !"⟩ := by
  refine ⟨by decide, by decide, by decide, by decide⟩

/-- Claim C2, counterexample: a user with a pending forgot-password token
logs in successfully, and the projection returned by Login still carries
`forgotPasswordToken` and `forgotPasswordExpiry` - the select string
excludes only password, refreshToken and the email-verification pair. -/
theorem c2_login_returns_forgot_password_fields :
    ((login testCrypto testEnv
        [{ aliceBase with
            forgotPasswordToken := some "resethash"
            forgotPasswordExpiry := some 99999 }]
        1000 "a@x.com" "pw123456").toOption.map
      (fun r => (r.2.user.forgotPasswordToken, r.2.user.forgotPasswordExpiry))) =
      some (some "resethash", some 99999) := by
  decide

/-- Claim C2, amended: the projection applied by Register and Login
(`.select("-password -refreshToken -emailVarificationToken -emailVarificationExpiry")`)
excludes the password hash, the refresh token and the email-verification
pair - its output is invariant under those four fields - but it retains
the password-reset fields `forgotPasswordToken`/`forgotPasswordExpiry`. -/
theorem c2_sanitize_excludes_secret_fields (u v : UserDoc)
    (hid : u._id = v._id) (hname : u.username = v.username)
    (hemail : u.email = v.email)
    (hverif : u.isEmailVarified = v.isEmailVarified)
    (hf : u.forgotPasswordToken = v.forgotPasswordToken)
    (hfe : u.forgotPasswordExpiry = v.forgotPasswordExpiry) :
    sanitizeSelect u = sanitizeSelect v := by
  simp [sanitizeSelect, hid, hname, hemail, hverif, hf, hfe]

theorem c2_sanitize_excludes_secret_fields_witness :
    sanitizeSelect { aliceBase with
        password := "bcrypt(one)"
        refreshToken := "r1"
        emailVarificationToken := some "h1"
        emailVarificationExpiry := some 5 } =
      sanitizeSelect { aliceBase with
          password := "bcrypt(two)"
          refreshToken := "r2"
          emailVarificationToken := some "h2"
          emailVarificationExpiry := some 6 } :=
  c2_sanitize_excludes_secret_fields _ _ rfl rfl rfl rfl rfl rfl

/-- Claim C3 (code bug): the handler reads `req.cookie.refreshToken`, but
Express defines `req.cookies`, so on a real request (which has `cookies`
and `body` but no `cookie` property) the member access throws a
`TypeError` before any rotation logic runs: even the FIRST refresh call
fails, let alone the claimed rotate-then-reject-replay behavior.  For the
handler logic after token extraction (with the extraction repaired as the
repository docs indicate) the first call does succeed and rotate and the
replay is rejected - but the replay surfaces as
`ApiError(401, "Refresh token is expired!")` because the catch-all
converts the internal `ApiError(404, "Invalid refresh token")`, so it is
not the distinct InvalidToken error either. -/
theorem c3_refresh_replay :
    refreshAccessToken testCrypto testEnv [{ aliceBase with refreshToken := tok0 }] 1500
      (.obj [("cookies", .obj [("refreshToken", .str tok0)]),
             ("body", .obj [("refreshToken", .str tok0)])]) =
      .error (.js .typeError) ∧
    refreshAccessTokenLogic testCrypto testEnv
        [{ aliceBase with refreshToken := tok0 }] 1500 tok0 =
      .ok ([{ aliceBase with refreshToken := tok1 }],
        AccessPayload.encode
          { _id := 1, email := "a@x.com", username := "alice",
            iat := 1500, exp := 1600, secret := "asecret" },
        tok1) ∧
    tok1 ≠ tok0 ∧
    refreshAccessTokenLogic testCrypto testEnv
        [{ aliceBase with refreshToken := tok1 }] 1600 tok0 =
      .error ⟨401, "Refresh token is expired!"⟩ ∧
    (⟨401, "Refresh token is expired!"⟩ : ApiError) ≠
      ⟨404, "Invalid refresh token"⟩ := by
  refine ⟨by decide, by decide, by decide, by decide, by decide⟩

/-- Claim C4 (code bug): `logout` updates `req.user_id`, a property that
does not exist (the middleware sets `req.user`), so the id is `undefined`
and `findByIdAndUpdate` matches nothing: after logout the user's stored
refresh token is unchanged (not cleared), and a subsequent refresh with
the pre-logout token still succeeds. -/
theorem c4_logout_does_not_clear_refresh_token :
    logout [{ aliceBase with refreshToken := tok0 }]
        ⟨{ aliceBase with refreshToken := tok0 }⟩ =
      [{ aliceBase with refreshToken := tok0 }] ∧
    ((findById (logout [{ aliceBase with refreshToken := tok0 }]
        ⟨{ aliceBase with refreshToken := tok0 }⟩) 1).map
      (fun u => u.refreshToken)) = some tok0 ∧
    tok0 ≠ "" ∧
    (refreshAccessTokenLogic testCrypto testEnv
        (logout [{ aliceBase with refreshToken := tok0 }]
          ⟨{ aliceBase with refreshToken := tok0 }⟩) 1500 tok0).isOk = true := by
  refine ⟨by decide, by decide, by decide, by decide⟩

/-- Claim C5 (code bug): the middleware strips the literal `"Beared "`
instead of `"Bearer "` from the Authorization header (the typo is flagged
in the repository docs), so a request with a perfectly valid access token
in a standard `Authorization: Bearer <token>` header is rejected with 401,
while the same token in the `accessToken` cookie is accepted. -/
theorem c5_bearer_header_rejected :
    jwtVerifyAccess atok testEnv.accessTokenSecret 1050 ≠ none ∧
    verifyJWT testEnv [aliceBase] 1050
        { cookiesAccessToken := some atok, authorizationHeader := none } =
      .ok (sanitizeSelect aliceBase) ∧
    verifyJWT testEnv [aliceBase] 1050
        { cookiesAccessToken := none,
          authorizationHeader := some ("Bearer " ++ atok) } =
      .error ⟨401, "Invalid access token. !"⟩ := by
  refine ⟨by decide, by decide, by decide⟩

/-- Claim C6: for every email with no matching user record, `login` with
that email fails with the user-does-not-exist error (the spec calls this
error NotFound; the code raises it with HTTP status 400). -/
theorem c6_login_unknown_email_fails (c : Crypto) (env : JwtEnv) (st : Store)
    (now : Nat) (email password : String) (hne : email ≠ "")
    (h : findByEmail st email = none) :
    login c env st now email password = .error ⟨400, "User does not exists !"⟩ := by
  unfold login
  simp [hne, h]

theorem c6_login_unknown_email_fails_witness :
    login testCrypto testEnv [aliceBase] 1000 "nobody@x.com" "pw" =
      .error ⟨400, "User does not exists !"⟩ :=
  c6_login_unknown_email_fails testCrypto testEnv [aliceBase] 1000
    "nobody@x.com" "pw" (by decide) (by decide)

/-- An unverified user holding the verification pair for the plain token
`"plaintok"` under `testCrypto`. -/
def c7User : UserDoc :=
  { aliceBase with
      isEmailVarified := false
      emailVarificationToken := some "sha256(plaintok)"
      emailVarificationExpiry := some 99999 }

/-- Claim C7: `verifyEmail` fails with the invalid-or-expired error for
every presented token that matches no stored user under the code's filter
(digest equality AND stored expiry strictly greater than now); with the
correct unexpired token it sets `isEmailVarified`, clears the pair, and -
provided the matched user was the only holder of that digest - a second
call with the same token fails. -/
theorem c7_verify_email_exactly_once (c : Crypto) (st : Store)
    (now now2 : Nat) (tok : String) (hne : tok ≠ "") :
    ((∀ v ∈ st, matchVerification now (c.sha256 tok) v = false) →
      verifyEmail c st now tok = .error ⟨400, "Token is invalid or expired!"⟩) ∧
    (∀ u, st.find? (matchVerification now (c.sha256 tok)) = some u →
      (∀ v ∈ st, v._id ≠ u._id → v.emailVarificationToken ≠ some (c.sha256 tok)) →
      ∃ st', verifyEmail c st now tok = .ok (st', true) ∧
        ((findById st' u._id).map (fun d =>
          (d.isEmailVarified, d.emailVarificationToken,
            d.emailVarificationExpiry))) = some (true, none, none) ∧
        verifyEmail c st' now2 tok =
          .error ⟨400, "Token is invalid or expired!"⟩) := by
  constructor
  · intro hnone
    have hfind : st.find? (matchVerification now (c.sha256 tok)) = none := by
      rw [List.find?_eq_none]
      intro v hv
      simp [hnone v hv]
    unfold verifyEmail
    simp [hne, hfind]
  · intro u hu hunique
    refine ⟨saveUser c st { u with emailVarificationToken := none, emailVarificationExpiry := none, isEmailVarified := true }, ?_, ?_, ?_⟩
    · unfold verifyEmail
      simp [hne, hu]
    · have hmem : u ∈ st := List.mem_of_find?_eq_some hu
      have hsome : (findById st u._id).isSome := findById_isSome_of_mem st u hmem
      have hfs := findById_saveUser_self c st
        { u with emailVarificationToken := none, emailVarificationExpiry := none, isEmailVarified := true } hsome
      rw [hfs]
      simp [preSaveHook_isEmailVarified, preSaveHook_emailVarificationToken,
        preSaveHook_emailVarificationExpiry]
    · have hfind2 : (saveUser c st { u with emailVarificationToken := none, emailVarificationExpiry := none, isEmailVarified := true }).find?
          (matchVerification now2 (c.sha256 tok)) = none := by
        rw [List.find?_eq_none]
        intro v hv
        rcases mem_saveUser c st _ v hv with h1 | ⟨hmem2, hid2⟩
        · rw [h1]
          simp [matchVerification, preSaveHook_emailVarificationToken]
        · have hv' : (v.emailVarificationToken == some (c.sha256 tok)) = false := by
            rw [beq_eq_false_iff_ne]
            exact hunique v hmem2 hid2
          simp [matchVerification, hv']
      unfold verifyEmail
      simp [hne, hfind2]

theorem c7_verify_email_exactly_once_witness :
    ∃ st', verifyEmail testCrypto [c7User] 5 "plaintok" = .ok (st', true) ∧
      ((findById st' 1).map (fun d =>
        (d.isEmailVarified, d.emailVarificationToken,
          d.emailVarificationExpiry))) = some (true, none, none) ∧
      verifyEmail testCrypto st' 6 "plaintok" =
        .error ⟨400, "Token is invalid or expired!"⟩ :=
  (c7_verify_email_exactly_once testCrypto [c7User] 5 6 "plaintok"
      (by decide)).2 c7User (by decide)
    (by
      intro v hv hvne
      simp only [List.mem_singleton] at hv
      subst hv
      exact absurd rfl hvne)

/-- Claim C8: for every triple issued by `generateTemoporaryToken`, the
digest of the plain token equals the hash handed out for persistence, the
expiry is now + 20 minutes, and verification of a presented plain token
against a stored hash and expiry (the `verifyEmail` store query, which is
where the code folds the verify step) succeeds iff the recomputed digest
equals the stored hash and the stored expiry is strictly greater than now
(and a token was presented at all); moreover `forgotPasswordRequest`
persists exactly the issued hash and expiry. -/
theorem c8_codec_round_trip (c : Crypto) (randomHex : String) (now : Nat) :
    (generateTemoporaryToken c randomHex now).2.1 =
      c.sha256 (generateTemoporaryToken c randomHex now).1 ∧
    (generateTemoporaryToken c randomHex now).2.2 = now + 20 * 60 * 1000 ∧
    (∀ (base : UserDoc) (storedHash : String) (storedExpiry : Nat)
        (presented : String) (now' : Nat),
      (verifyEmail c
          [{ base with emailVarificationToken := some storedHash, emailVarificationExpiry := some storedExpiry }]
          now' presented).isOk = true ↔
        (presented ≠ "" ∧ c.sha256 presented = storedHash ∧ now' < storedExpiry)) ∧
    (∀ (st : Store) (email : String) (u : UserDoc),
      findByEmail st email = some u →
      ∃ st', forgotPasswordRequest c st now randomHex email = .ok st' ∧
        ((findById st' u._id).map (fun d =>
          (d.forgotPasswordToken, d.forgotPasswordExpiry))) =
          some (some (c.sha256 randomHex), some (now + 20 * 60 * 1000))) := by
  refine ⟨rfl, rfl, ?_, ?_⟩
  · intro base storedHash storedExpiry presented now'
    unfold verifyEmail
    by_cases hp : presented = ""
    · simp [hp, Except.isOk, Except.toBool]
    · by_cases hh : c.sha256 presented = storedHash
      · by_cases hl : now' < storedExpiry
        · simp [hp, hh, hl, matchVerification, List.find?_cons, Except.isOk, Except.toBool]
        · simp [hp, hh, hl, matchVerification, List.find?_cons, Except.isOk, Except.toBool]
      · have hbeq : ((some storedHash == some (c.sha256 presented)) : Bool) = false := by
          rw [beq_eq_false_iff_ne]
          intro hcon
          injection hcon with hcon'
          exact hh hcon'.symm
        simp [hp, hh, matchVerification, hbeq, List.find?_cons, Except.isOk, Except.toBool]
  · intro st email u hu
    refine ⟨saveUser c st { u with forgotPasswordToken := some (c.sha256 randomHex), forgotPasswordExpiry := some (now + 20 * 60 * 1000) }, ?_, ?_⟩
    · unfold forgotPasswordRequest generateTemoporaryToken
      simp [hu]
    · have hmem : u ∈ st := List.mem_of_find?_eq_some hu
      have hsome : (findById st u._id).isSome := findById_isSome_of_mem st u hmem
      have hfs := findById_saveUser_self c st
        { u with forgotPasswordToken := some (c.sha256 randomHex), forgotPasswordExpiry := some (now + 20 * 60 * 1000) } hsome
      rw [hfs]
      simp [preSaveHook_forgotPasswordToken, preSaveHook_forgotPasswordExpiry]

theorem c8_codec_round_trip_witness :
    (generateTemoporaryToken testCrypto "deadbeef" 100).2.1 =
      testCrypto.sha256 (generateTemoporaryToken testCrypto "deadbeef" 100).1 ∧
    ∃ st', forgotPasswordRequest testCrypto [aliceBase] 100 "deadbeef" "a@x.com" = .ok st' ∧
      ((findById st' 1).map (fun d =>
        (d.forgotPasswordToken, d.forgotPasswordExpiry))) =
        some (some (testCrypto.sha256 "deadbeef"), some (100 + 20 * 60 * 1000)) :=
  ⟨(c8_codec_round_trip testCrypto "deadbeef" 100).1,
   (c8_codec_round_trip testCrypto "deadbeef" 100).2.2.2 [aliceBase] "a@x.com"
     aliceBase (by decide)⟩

/-- Claim C9: a successful ChangePassword and a successful ResetPassword
each clear the stored `refreshToken` (set it to the empty string), so a
refresh attempt presenting the refresh token stored before the password
change fails afterward (the uniqueness hypothesis says no other stored
user happens to hold the same refresh-token string). -/
theorem c9_password_change_revokes_sessions (c : Crypto) (env : JwtEnv)
    (st : Store) (now now2 : Nat) :
    (∀ (uid : Nat) (oldPassword newPassword : String) (u : UserDoc),
      findById st uid = some u →
      c.bcryptCompare oldPassword u.password = true →
      (∀ v ∈ st, v._id ≠ uid → v.refreshToken ≠ u.refreshToken) →
      ∃ st', changeCurrentPassword c st uid oldPassword newPassword = .ok st' ∧
        ((findById st' uid).map (fun d => d.refreshToken)) = some "" ∧
        (refreshAccessTokenLogic c env st' now2 u.refreshToken).isOk = false) ∧
    (∀ (resetToken newPassword : String) (u : UserDoc),
      st.find? (matchForgot now (c.sha256 resetToken)) = some u →
      (∀ v ∈ st, v._id ≠ u._id → v.refreshToken ≠ u.refreshToken) →
      ∃ st', resetForgotPassword c st now resetToken newPassword = .ok st' ∧
        ((findById st' u._id).map (fun d => d.refreshToken)) = some "" ∧
        (refreshAccessTokenLogic c env st' now2 u.refreshToken).isOk = false) := by
  constructor
  · intro uid oldPassword newPassword u hu hcmp hunique
    have huid : u._id = uid := by
      have := List.find?_some hu
      simpa using this
    have hsome : (findById st uid).isSome := by rw [hu]; rfl
    refine ⟨saveUser c st { u with password := newPassword, passwordModified := true, refreshToken := "" }, ?_, ?_, ?_⟩
    · unfold changeCurrentPassword
      rw [hu]
      simp [isPasswordCorrect, hcmp]
    · rw [findById_saveUser_self' c st
        { u with password := newPassword, passwordModified := true, refreshToken := "" }
        uid huid hsome]
      simp [preSaveHook_refreshToken]
    · by_cases hrt : u.refreshToken = ""
      · unfold refreshAccessTokenLogic
        rw [if_pos hrt]
        rfl
      · apply refreshLogic_fails_of_not_stored
        intro v hv
        rcases mem_saveUser c st _ v hv with h1 | ⟨hm, hid⟩
        · rw [h1, preSaveHook_refreshToken]
          exact fun hcon => hrt hcon.symm
        · have hid' : v._id ≠ uid := by
            rw [← huid]
            exact hid
          exact hunique v hm hid'
  · intro resetToken newPassword u hu hunique
    have hmem : u ∈ st := List.mem_of_find?_eq_some hu
    have hsome : (findById st u._id).isSome := findById_isSome_of_mem st u hmem
    refine ⟨saveUser c st { u with forgotPasswordExpiry := none, forgotPasswordToken := none, password := newPassword, passwordModified := true, refreshToken := "" }, ?_, ?_, ?_⟩
    · unfold resetForgotPassword
      simp [hu]
    · rw [findById_saveUser_self' c st
        { u with forgotPasswordExpiry := none, forgotPasswordToken := none, password := newPassword, passwordModified := true, refreshToken := "" }
        u._id rfl hsome]
      simp [preSaveHook_refreshToken]
    · by_cases hrt : u.refreshToken = ""
      · unfold refreshAccessTokenLogic
        rw [if_pos hrt]
        rfl
      · apply refreshLogic_fails_of_not_stored
        intro v hv
        rcases mem_saveUser c st _ v hv with h1 | ⟨hm, hid⟩
        · rw [h1, preSaveHook_refreshToken]
          exact fun hcon => hrt hcon.symm
        · exact hunique v hm hid

theorem c9_password_change_revokes_sessions_witness :
    (∃ st', changeCurrentPassword testCrypto [{ aliceBase with refreshToken := tok0 }]
        1 "pw123456" "newpw" = .ok st' ∧
      ((findById st' 1).map (fun d => d.refreshToken)) = some "" ∧
      (refreshAccessTokenLogic testCrypto testEnv st' 1500 tok0).isOk = false) ∧
    (∃ st', resetForgotPassword testCrypto
        [{ aliceBase with refreshToken := tok0, forgotPasswordToken := some "sha256(resetplain)", forgotPasswordExpiry := some 99999 }]
        5 "resetplain" "newpw" = .ok st' ∧
      ((findById st' 1).map (fun d => d.refreshToken)) = some "" ∧
      (refreshAccessTokenLogic testCrypto testEnv st' 1500 tok0).isOk = false) :=
  ⟨(c9_password_change_revokes_sessions testCrypto testEnv
      [{ aliceBase with refreshToken := tok0 }] 5 1500).1
      1 "pw123456" "newpw" { aliceBase with refreshToken := tok0 }
      (by decide) (by decide)
      (by
        intro v hv hvne
        simp only [List.mem_singleton] at hv
        subst hv
        exact absurd rfl hvne),
   (c9_password_change_revokes_sessions testCrypto testEnv
      [{ aliceBase with refreshToken := tok0, forgotPasswordToken := some "sha256(resetplain)", forgotPasswordExpiry := some 99999 }] 5 1500).2
      "resetplain" "newpw"
      { aliceBase with refreshToken := tok0, forgotPasswordToken := some "sha256(resetplain)", forgotPasswordExpiry := some 99999 }
      (by decide)
      (by
        intro v hv hvne
        simp only [List.mem_singleton] at hv
        subst hv
        exact absurd rfl hvne)⟩

/-- An unverified user holding the verification pair for `"c10tok"`. -/
def c10VUser : UserDoc :=
  { aliceBase with
      isEmailVarified := false
      emailVarificationToken := some "sha256(c10tok)"
      emailVarificationExpiry := some 999 }

/-- Claim C10: the pre-save hook hashes the password exactly when that
field was modified, so every save that touches only token fields (email
verification, refresh-token persistence on login/refresh, resending
verification, storing the forgot-password pair) leaves the stored
password hash unchanged. -/
theorem c10_token_saves_preserve_password (c : Crypto) :
    (∀ u : UserDoc, u.passwordModified = false → preSaveHook c u = u) ∧
    (∀ u : UserDoc, (preSaveHook c { u with passwordModified := true }).password =
      c.bcryptHash u.password) ∧
    (∀ (st : Store) (now : Nat) (tok : String) (u : UserDoc) (st' : Store) (b : Bool),
      st.find? (matchVerification now (c.sha256 tok)) = some u →
      u.passwordModified = false →
      verifyEmail c st now tok = .ok (st', b) →
      ((findById st' u._id).map (fun d => d.password)) = some u.password) ∧
    (∀ (env : JwtEnv) (st : Store) (now uid : Nat) (u : UserDoc)
        (st' : Store) (a r : String),
      findById st uid = some u →
      u.passwordModified = false →
      generateAccessAndRefreshToken c env st now uid = .ok (st', a, r) →
      ((findById st' uid).map (fun d => d.password)) = some u.password) ∧
    (∀ (st : Store) (now : Nat) (randomHex : String) (uid : Nat) (u : UserDoc)
        (st' : Store),
      findById st uid = some u →
      u.passwordModified = false →
      resendEmailVerification c st now randomHex uid = .ok st' →
      ((findById st' uid).map (fun d => d.password)) = some u.password) ∧
    (∀ (st : Store) (now : Nat) (randomHex email : String) (u : UserDoc)
        (st' : Store),
      findByEmail st email = some u →
      u.passwordModified = false →
      forgotPasswordRequest c st now randomHex email = .ok st' →
      ((findById st' u._id).map (fun d => d.password)) = some u.password) := by
  refine ⟨?_, ?_, ?_, ?_, ?_, ?_⟩
  · intro u hm
    exact preSaveHook_of_not_modified c u hm
  · intro u
    unfold preSaveHook
    simp
  · intro st now tok u st' b hu hm heq
    by_cases htok : tok = ""
    · simp [verifyEmail, htok] at heq
    · have hval : verifyEmail c st now tok =
          .ok (saveUser c st { u with emailVarificationToken := none, emailVarificationExpiry := none, isEmailVarified := true }, true) := by
        unfold verifyEmail
        simp [htok, hu]
      rw [hval] at heq
      have hpair := Except.ok.inj heq
      have hst : saveUser c st { u with emailVarificationToken := none, emailVarificationExpiry := none, isEmailVarified := true } = st' :=
        congrArg Prod.fst hpair
      subst hst
      have hmem := List.mem_of_find?_eq_some hu
      have hsome := findById_isSome_of_mem st u hmem
      exact findById_saveUser_password c st _ u._id rfl hm hsome
  · intro env st now uid u st' a r hu hm heq
    have huid : u._id = uid := by
      have := List.find?_some hu
      simpa using this
    have hval : generateAccessAndRefreshToken c env st now uid =
        .ok (saveUser c st { u with refreshToken := generateRefreshToken env u now },
          generateAccessToken env u now, generateRefreshToken env u now) := by
      unfold generateAccessAndRefreshToken
      simp [hu]
    rw [hval] at heq
    have hpair := Except.ok.inj heq
    have hst : saveUser c st { u with refreshToken := generateRefreshToken env u now } = st' :=
      congrArg Prod.fst hpair
    subst hst
    have hsome : (findById st uid).isSome := by rw [hu]; rfl
    exact findById_saveUser_password c st _ uid huid hm hsome
  · intro st now randomHex uid u st' hu hm heq
    have huid : u._id = uid := by
      have := List.find?_some hu
      simpa using this
    by_cases hverif : u.isEmailVarified
    · simp [resendEmailVerification, hu, hverif] at heq
    · have hval : resendEmailVerification c st now randomHex uid =
          .ok (saveUser c st { u with emailVarificationToken := some (c.sha256 randomHex), emailVarificationExpiry := some (now + 20 * 60 * 1000) }) := by
        unfold resendEmailVerification generateTemoporaryToken
        simp [hu, hverif]
      rw [hval] at heq
      have hst := Except.ok.inj heq
      subst hst
      have hsome : (findById st uid).isSome := by rw [hu]; rfl
      exact findById_saveUser_password c st _ uid huid hm hsome
  · intro st now randomHex email u st' hu hm heq
    have hval : forgotPasswordRequest c st now randomHex email =
        .ok (saveUser c st { u with forgotPasswordToken := some (c.sha256 randomHex), forgotPasswordExpiry := some (now + 20 * 60 * 1000) }) := by
      unfold forgotPasswordRequest generateTemoporaryToken
      simp [hu]
    rw [hval] at heq
    have hst := Except.ok.inj heq
    subst hst
    have hmem := List.mem_of_find?_eq_some hu
    have hsome := findById_isSome_of_mem st u hmem
    exact findById_saveUser_password c st _ u._id rfl hm hsome

theorem c10_token_saves_preserve_password_witness :
    (((findById [{ c10VUser with emailVarificationToken := none, emailVarificationExpiry := none, isEmailVarified := true }] 1).map
        (fun d => d.password)) = some c10VUser.password) ∧
    (((findById [{ aliceBase with refreshToken := tok0 }] 1).map
        (fun d => d.password)) = some aliceBase.password) ∧
    (((findById [{ c10VUser with emailVarificationToken := some "sha256(rnd)", emailVarificationExpiry := some (7 + 20 * 60 * 1000) }] 1).map
        (fun d => d.password)) = some c10VUser.password) ∧
    (((findById [{ aliceBase with forgotPasswordToken := some "sha256(rnd)", forgotPasswordExpiry := some (9 + 20 * 60 * 1000) }] 1).map
        (fun d => d.password)) = some aliceBase.password) :=
  ⟨(c10_token_saves_preserve_password testCrypto).2.2.1
      [c10VUser] 5 "c10tok" c10VUser
      [{ c10VUser with emailVarificationToken := none, emailVarificationExpiry := none, isEmailVarified := true }] true
      (by decide) (by decide) (by decide),
   (c10_token_saves_preserve_password testCrypto).2.2.2.1
      testEnv [aliceBase] 1000 1 aliceBase
      [{ aliceBase with refreshToken := tok0 }] atok tok0
      (by decide) (by decide) (by decide),
   (c10_token_saves_preserve_password testCrypto).2.2.2.2.1
      [c10VUser] 7 "rnd" 1 c10VUser
      [{ c10VUser with emailVarificationToken := some "sha256(rnd)", emailVarificationExpiry := some (7 + 20 * 60 * 1000) }]
      (by decide) (by decide) (by decide),
   (c10_token_saves_preserve_password testCrypto).2.2.2.2.2
      [aliceBase] 9 "rnd" "a@x.com" aliceBase
      [{ aliceBase with forgotPasswordToken := some "sha256(rnd)", forgotPasswordExpiry := some (9 + 20 * 60 * 1000) }]
      (by decide) (by decide) (by decide)⟩

end PMAuth
